import Mathlib

/-!
Shallow embedding of the theme-preference and scroll-reveal subsystems of
the optech_web4 repository, with theorems settling the spec claims.

Sources embedded:
- src/unnamed/part_000 : AppleThemeController (fixed initialization order)
- src/js/global.js     : AppleDarkModeController, observeElement, AppleHeroController helpers
- src/unnamed/part_002 : AppleHeroController.setupEntranceAnimation
- src/unnamed/part_003 : observeIntersection
- src/js/core/utils.js : easings
-/

namespace OptechWeb

/-- The Preference enum: the persisted light/dark choice. -/
inductive Theme
  | light
  | dark
deriving DecidableEq, Repr

/-- String rendering of a theme, as the JS code stores and compares it. -/
def Theme.str : Theme → String
  | .light => "light"
  | .dark => "dark"

/-- The flip performed by toggleTheme: currentTheme === dark ? light : dark. -/
def Theme.flip : Theme → Theme
  | .light => .dark
  | .dark => .light

/-- Outcome of reading the persistent store: error models a throwing
localStorage.getItem, ok none an absent key, ok (some s) a stored string. -/
abbrev StoreRead := Except Unit (Option String)

/-- Outcome of reading the OS dark-mode signal: error models a throwing
(or undefined) media-query access, ok b the matches value. -/
abbrev SignalRead := Except Unit Bool

/-- The guarded OS-signal fallback of part_000 getStoredTheme: return dark
when the signal reports dark, light when it reports light, and light when
the read throws (the catch branch). -/
def sysFallback : SignalRead → Theme
  | .ok true => .dark
  | .ok false => .light
  | .error _ => .light

/-- The truthy-and-valid test of part_000 getStoredTheme:
stored is truthy (non-empty) and a member of the list [light, dark]. -/
def validStored (s : String) : Prop :=
  s ≠ "" ∧ (s = "light" ∨ s = "dark")

instance (s : String) : Decidable (validStored s) := by
  unfold validStored; infer_instance

/-- AppleThemeController.getStoredTheme (src/unnamed/part_000 lines 59-76):
the localStorage read is inside try/catch, a stored value is returned only
when it is light or dark, and the media-query fallback is also guarded,
returning light when it throws. -/
def getStoredTheme (store : StoreRead) (mq : SignalRead) : Theme :=
  match store with
  | .ok (some s) =>
      if validStored s then (if s = "dark" then .dark else .light)
      else sysFallback mq
  | .ok none => sysFallback mq
  | .error _ => sysFallback mq

/-- AppleDarkModeController.getStoredTheme (src/js/global.js lines 685-696):
any truthy stored string is returned verbatim without validation, and the
final line reads prefersDark.matches outside any try/catch, so a throwing
(or still-undefined) media query propagates as an exception. -/
def getStoredThemeGlobal (store : StoreRead) (mq : SignalRead) : Except Unit String :=
  let mqBranch : Except Unit String :=
    match mq with
    | .ok true => .ok "dark"
    | .ok false => .ok "light"
    | .error e => .error e
  match store with
  | .ok (some s) => if s ≠ "" then .ok s else mqBranch
  | .ok none => mqBranch
  | .error _ => mqBranch

/-- A root presentation node (documentElement or body): its class list and
its attribute association list. -/
structure Node where
  classes : List String
  attrs : List (String × String)
deriving DecidableEq, Repr

/-- classList.remove c: drops every occurrence of the token c. -/
def removeClass (n : Node) (c : String) : Node :=
  { n with classes := n.classes.filter (fun x => x ≠ c) }

/-- classList.add c: appends the token c when it is not already present. -/
def addClass (n : Node) (c : String) : Node :=
  if c ∈ n.classes then n else { n with classes := n.classes ++ [c] }

/-- setAttribute k v: the attribute k now maps to v, older bindings dropped. -/
def setAttr (n : Node) (k v : String) : Node :=
  { n with attrs := (k, v) :: n.attrs.filter (fun p => p.1 ≠ k) }

/-- getAttribute k: the current binding of attribute k, if any. -/
def getAttr (n : Node) (k : String) : Option String :=
  List.lookup k n.attrs

/-- The per-node body of part_000 applyTheme: remove both marker classes,
add the class for the given theme, set the data-theme attribute. -/
def applyThemeToNode (t : Theme) (n : Node) : Node :=
  setAttr (addClass (removeClass (removeClass n "light-theme") "dark-theme")
    (t.str ++ "-theme")) "data-theme" t.str

/-- The static theme-color table of part_000 (primary entries), matching the
literal table in global.js updateMetaThemeColor. -/
def themeColorsPrimary : Theme → String
  | .light => "#f5f5f7"
  | .dark => "#000000"

/-- The document state the applier mutates: the two root presentation nodes
and the content of the meta theme-color tag (upserted on apply). -/
structure Dom where
  root : Node
  body : Node
  metaThemeColor : Option String
deriving DecidableEq, Repr

/-- AppleThemeController.applyTheme (src/unnamed/part_000 lines 355-375),
matching AppleDarkModeController.applyTheme in global.js: for each of
documentElement and body, remove both marker classes, add the matching one,
set data-theme, then upsert the meta theme-color content. -/
def applyTheme (t : Theme) (d : Dom) : Dom :=
  { root := applyThemeToNode t d.root
    body := applyThemeToNode t d.body
    metaThemeColor := some (themeColorsPrimary t) }

/-- A value in a CustomEvent detail payload: a string or a number. -/
inductive EventVal
  | str (s : String)
  | num (n : Nat)
deriving DecidableEq, Repr

/-- One observable side effect of the controller, in execution order:
applying the presentation, the persist call, the toggle-button refresh, and
the document-level CustomEvent dispatch with its name and detail payload. -/
inductive Effect
  | applyE (t : Theme)
  | persistE (t : Theme)
  | iconUpdateE
  | broadcastE (eventName : String) (detail : List (String × EventVal))
deriving DecidableEq, Repr

/-- Effects the toggle contract speaks about (apply, persist, broadcast);
the cosmetic icon refresh is not one of them. -/
def Effect.relevant : Effect → Bool
  | .iconUpdateE => false
  | _ => true

/-- Whether an effect is the CustomEvent dispatch. -/
def Effect.isBroadcast : Effect → Bool
  | .broadcastE _ _ => true
  | _ => false

/-- Controller state: the in-memory currentTheme, the document, the value
stored under the fixed storage key, and whether localStorage.setItem
currently succeeds (its failure is swallowed by saveTheme). -/
structure ThemeCtrl where
  currentTheme : Theme
  dom : Dom
  store : Option String
  storeOk : Bool
deriving DecidableEq, Repr

/-- saveTheme (part_000 / global.js): best-effort localStorage.setItem;
when the store throws the failure is swallowed and the store is unchanged. -/
def saveTheme (s : ThemeCtrl) (t : Theme) : ThemeCtrl :=
  if s.storeOk then { s with store := some t.str } else s

/-- The detail payload of part_000 dispatchThemeEvent: theme and a numeric
timestamp taken at dispatch time. -/
def themeDetail (t : Theme) (now : Nat) : List (String × EventVal) :=
  [("theme", .str t.str), ("timestamp", .num now)]

/-- AppleThemeController.setTheme (src/unnamed/part_000 lines 337-352):
set currentTheme, applyTheme, saveTheme, updateToggleButton, then dispatch
the appleThemeChanged CustomEvent with detail theme plus timestamp.
The effect list records the calls in source order. -/
def setTheme (now : Nat) (s : ThemeCtrl) (t : Theme) : ThemeCtrl × List Effect :=
  let s1 := { s with currentTheme := t, dom := applyTheme t s.dom }
  let s2 := saveTheme s1 t
  (s2, [.applyE t, .persistE t, .iconUpdateE,
        .broadcastE "appleThemeChanged" (themeDetail t now)])

/-- AppleThemeController.toggleTheme (src/unnamed/part_000 lines 328-335):
flip currentTheme and run setTheme on the result. -/
def toggleTheme (now : Nat) (s : ThemeCtrl) : ThemeCtrl × List Effect :=
  setTheme now s s.currentTheme.flip

/-- AppleDarkModeController.setTheme (src/js/global.js lines 856-865):
same call order, but the themeChanged CustomEvent detail carries only the
theme and no timestamp. -/
def setThemeG (s : ThemeCtrl) (t : Theme) : ThemeCtrl × List Effect :=
  let s1 := { s with currentTheme := t, dom := applyTheme t s.dom }
  let s2 := saveTheme s1 t
  (s2, [.applyE t, .persistE t, .iconUpdateE,
        .broadcastE "themeChanged" [("theme", .str t.str)]])

/-- AppleDarkModeController.toggleTheme (src/js/global.js lines 850-854). -/
def toggleThemeG (s : ThemeCtrl) : ThemeCtrl × List Effect :=
  setThemeG s s.currentTheme.flip

/-- The detail payloads of the broadcast effects in a trace, in order. -/
def broadcastDetails (es : List Effect) : List (List (String × EventVal)) :=
  es.filterMap (fun e =>
    match e with
    | .broadcastE _ d => some d
    | _ => none)

/-- The theme field of each broadcast payload in a trace. -/
def broadcastThemes (es : List Effect) : List (Option EventVal) :=
  (broadcastDetails es).map (fun d => List.lookup "theme" d)

/-- JS truthiness of localStorage.getItem: null (absent) and the empty
string are falsy; any other stored string is truthy. -/
def storeTruthy : Option String → Bool
  | none => false
  | some s => s != ""

/-- The theme named by the media-query matches flag. -/
def osTheme (osDark : Bool) : Theme :=
  if osDark then .dark else .light

/-- The system-theme change handler (src/unnamed/part_000 lines 457-476,
matching src/js/global.js lines 838-848): only when localStorage holds no
truthy value under the key, apply the new OS theme, set currentTheme and
refresh the icon; it never calls saveTheme and never dispatches the event. -/
def handleSystemThemeChange (s : ThemeCtrl) (osDark : Bool) :
    ThemeCtrl × List Effect :=
  if storeTruthy s.store then (s, [])
  else
    let t := osTheme osDark
    ({ s with currentTheme := t, dom := applyTheme t s.dom },
     [.applyE t, .iconUpdateE])

/-- One delivery of IntersectionObserver entries for a watched element, as
the list of the isIntersecting flags of its entries. -/
abbrev EntryBatch := List Bool

/-- The hero observer handler body (src/unnamed/part_002 lines 63-70) on
one entries array: for each entry, when it is intersecting and hasAnimated
is still false, trigger the entrance animation and set hasAnimated.
Returns the new hasAnimated flag and the number of triggers fired. -/
def heroProcessEntries : Bool → EntryBatch → Bool × Nat
  | ha, [] => (ha, 0)
  | ha, e :: rest =>
      if e && !ha then
        let r := heroProcessEntries true rest
        (r.1, r.2 + 1)
      else
        heroProcessEntries ha rest

/-- The hero handler run over a sequence of entry deliveries; the element
is never unobserved, so every delivery reaches the handler. -/
def heroProcessBatches : Bool → List EntryBatch → Bool × Nat
  | ha, [] => (ha, 0)
  | ha, b :: rest =>
      let r1 := heroProcessEntries ha b
      let r2 := heroProcessBatches r1.1 rest
      (r2.1, r1.2 + r2.2)

/-- Whether an entries array contains an intersecting entry. -/
def intersectingBatch (b : EntryBatch) : Bool := b.any id

/-- The observeIntersection observer callback (src/unnamed/part_003 lines
39-45): filter the intersecting entries and invoke the user callback when
any remain; there is no latch and no unobserve, so the number of
user-callback invocations over a delivery sequence is the number of
deliveries that contain an intersecting entry. -/
def observeIntersectionCalls (batches : List EntryBatch) : Nat :=
  (batches.filter intersectingBatch).length

/-- The observeIntersection fallback (src/unnamed/part_003 lines 29-38),
taken when IntersectionObserver is missing: for each non-null element the
user callback is invoked synchronously once, with a single synthetic
intersecting entry. The input lists the truthiness of each registered
element; the result counts the callback invocations. -/
def observeIntersectionFallbackCalls (elems : List Bool) : Nat :=
  (elems.filter id).length

/-- What setupEntranceAnimation registers: an intersection subscription at
a threshold, or a setTimeout fallback that will run the reveal. -/
inductive HeroRegistration
  | observer (threshold : ℚ)
  | timer (delayMs : Nat)
deriving DecidableEq, Repr

/-- AppleHeroController.setupEntranceAnimation (src/unnamed/part_002 lines
60-75): when the AppleGlobal observeElement helper exists, subscribe the
hero section at threshold 0.1; otherwise schedule the entrance animation
on a 300 ms setTimeout. -/
def setupEntranceAnimation (helperAvailable : Bool) : HeroRegistration :=
  if helperAvailable then .observer (1/10) else .timer 300

/-- observeElement (src/js/global.js lines 70-79): constructs an
IntersectionObserver with no feature detection, so when the primitive is
absent in the runtime the construction throws a ReferenceError and the
callback is neither registered nor invoked. -/
def observeElement (ioAvailable : Bool) : Except Unit Unit :=
  if ioAvailable then .ok () else .error ()

/-- An empty document and a fresh controller in the light state with a
working, empty store — the concrete scenario state used by witnesses. -/
def node0 : Node := { classes := [], attrs := [] }

def dom0 : Dom := { root := node0, body := node0, metaThemeColor := none }

def ctrl0 : ThemeCtrl :=
  { currentTheme := .light, dom := dom0, store := none, storeOk := true }

end OptechWeb

namespace easings

/-- easings.easeInOut (src/js/core/utils.js):
t < 0.5 ? 4 t t t : 1 - pow(-2 t + 2, 3) / 2, over the rationals. -/
def easeInOut (t : ℚ) : ℚ :=
  if t < 1/2 then 4 * t * t * t else 1 - (-2 * t + 2) ^ 3 / 2

/-- easings.apple (src/js/core/utils.js):
t < 0.5 ? 4 t t t : 1 - pow(-2 t + 2, 3) / 2, over the rationals. -/
def apple (t : ℚ) : ℚ :=
  if t < 1/2 then 4 * t * t * t else 1 - (-2 * t + 2) ^ 3 / 2

end easings

namespace OptechWeb

theorem mem_removeClass {x c : String} {n : Node} :
    x ∈ (removeClass n c).classes ↔ x ∈ n.classes ∧ x ≠ c := by
  simp [removeClass]

theorem mem_addClass {x c : String} {n : Node} :
    x ∈ (addClass n c).classes ↔ x ∈ n.classes ∨ x = c := by
  unfold addClass
  split
  · constructor
    · intro h; exact Or.inl h
    · rintro (h | rfl) <;> assumption
  · simp

theorem getAttr_setAttr (n : Node) (k v : String) :
    getAttr (setAttr n k v) k = some v := by
  simp [getAttr, setAttr, List.lookup]

theorem classes_setAttr (n : Node) (k v : String) :
    (setAttr n k v).classes = n.classes := rfl

/-- Per-node postcondition of applyThemeToNode: the data-theme attribute
reads back as the theme string, the matching marker class is present, and
the opposite marker class is absent. -/
theorem applyThemeToNode_spec (t : Theme) (n : Node) :
    getAttr (applyThemeToNode t n) "data-theme" = some t.str ∧
    (t.str ++ "-theme") ∈ (applyThemeToNode t n).classes ∧
    (t.flip.str ++ "-theme") ∉ (applyThemeToNode t n).classes := by
  refine ⟨getAttr_setAttr _ _ _, ?_, ?_⟩
  · rw [applyThemeToNode, classes_setAttr, mem_addClass]
    exact Or.inr rfl
  · rw [applyThemeToNode, classes_setAttr, mem_addClass, mem_removeClass,
      mem_removeClass]
    cases t <;> simp [Theme.str, Theme.flip]

theorem storeTruthy_some_str (t : Theme) : storeTruthy (some t.str) = true := by
  cases t <;> rfl

theorem heroProcessEntries_latched (b : EntryBatch) :
    heroProcessEntries true b = (true, 0) := by
  induction b with
  | nil => rfl
  | cons e rest ih => simp [heroProcessEntries, ih]

theorem heroProcessEntries_unlatched (b : EntryBatch) :
    heroProcessEntries false b =
      (if intersectingBatch b then (true, 1) else (false, 0)) := by
  induction b with
  | nil => rfl
  | cons e rest ih =>
    cases e
    · simpa [heroProcessEntries, intersectingBatch] using ih
    · simp [heroProcessEntries, intersectingBatch, heroProcessEntries_latched]

theorem heroProcessBatches_latched (bs : List EntryBatch) :
    heroProcessBatches true bs = (true, 0) := by
  induction bs with
  | nil => rfl
  | cons b rest ih =>
    simp [heroProcessBatches, heroProcessEntries_latched, ih]

theorem heroProcessBatches_unlatched (bs : List EntryBatch) :
    heroProcessBatches false bs =
      (if bs.any intersectingBatch then (true, 1) else (false, 0)) := by
  induction bs with
  | nil => rfl
  | cons b rest ih =>
    by_cases h : intersectingBatch b
    · simp [heroProcessBatches, heroProcessEntries_unlatched, h,
        heroProcessBatches_latched]
    · simp [heroProcessBatches, heroProcessEntries_unlatched, h, ih]

/-- C2: the preference resolution of the fixed controller (part_000) is the
claimed total fallback chain, but the duplicate in global.js raises when the
store is empty and the OS-signal read throws: its getStoredTheme propagates
the exception instead of returning light. -/
theorem C2_resolve_totality_global_raises :
    getStoredTheme (Except.ok none) (Except.error ()) = Theme.light ∧
    getStoredTheme (Except.ok none) (Except.ok true) = Theme.dark ∧
    getStoredTheme (Except.ok none) (Except.ok false) = Theme.light ∧
    getStoredTheme (Except.error ()) (Except.error ()) = Theme.light ∧
    getStoredThemeGlobal (Except.ok none) (Except.error ()) = Except.error () := by
  refine ⟨rfl, rfl, rfl, rfl, rfl⟩

/-- C8 counterexample: the global.js resolver returns a corrupted stored
string (here the string purple, not a member of the enum) verbatim as the
preference instead of treating it as absent. -/
theorem C8_counterexample_global_returns_corrupted :
    getStoredThemeGlobal (Except.ok (some "purple")) (Except.ok false)
      = Except.ok "purple" ∧
    "purple" ≠ "light" ∧ "purple" ≠ "dark" := by
  refine ⟨rfl, by decide, by decide⟩

/-- C8 (amended): in the fixed controller (part_000) a stored string is
returned only when it is light or dark; any other stored string is treated
as absent and falls through to the guarded OS-signal fallback (light when
that read throws). -/
theorem C8_resolve_validates (s : String) (mq : SignalRead)
    (h : s ≠ "light" ∧ s ≠ "dark") :
    getStoredTheme (Except.ok (some s)) mq = sysFallback mq ∧
    getStoredTheme (Except.ok (some "light")) mq = Theme.light ∧
    getStoredTheme (Except.ok (some "dark")) mq = Theme.dark := by
  refine ⟨?_, ?_, ?_⟩
  · have hv : ¬ validStored s := by
      intro hv
      rcases hv with ⟨-, hmem⟩
      rcases hmem with h1 | h2
      · exact h.1 h1
      · exact h.2 h2
    simp [getStoredTheme, hv]
  · simp [getStoredTheme, validStored]
  · simp [getStoredTheme, validStored]

/-- C8 witness: instantiating the amended validation theorem at the stored
string purple and a throwing OS signal. -/
theorem C8_resolve_validates_witness :
    getStoredTheme (Except.ok (some "purple")) (Except.error ()) = Theme.light :=
  (C8_resolve_validates "purple" (Except.error ()) (by decide)).1

/-- C10: the easing registered under the name apple is pointwise equal to
the easing registered under the name easeInOut. -/
theorem C10_apple_eq_easeInOut (t : ℚ) : easings.apple t = easings.easeInOut t :=
  rfl

/-- C3: after apply(v), the data-theme attribute on both root presentation
nodes equals v, and on each node exactly one of the two marker classes is
present, namely the one matching v, for every prior class list and
attribute set. -/
theorem C3_apply_postcondition (t : Theme) (d : Dom) :
    getAttr (applyTheme t d).root "data-theme" = some t.str ∧
    getAttr (applyTheme t d).body "data-theme" = some t.str ∧
    (t.str ++ "-theme") ∈ (applyTheme t d).root.classes ∧
    (t.flip.str ++ "-theme") ∉ (applyTheme t d).root.classes ∧
    (t.str ++ "-theme") ∈ (applyTheme t d).body.classes ∧
    (t.flip.str ++ "-theme") ∉ (applyTheme t d).body.classes := by
  obtain ⟨hr1, hr2, hr3⟩ := applyThemeToNode_spec t d.root
  obtain ⟨hb1, hb2, hb3⟩ := applyThemeToNode_spec t d.body
  exact ⟨hr1, hb1, hr2, hr3, hb2, hb3⟩

/-- C4: from the light state with a working store, one toggle yields
applied state dark, persisted value dark and a broadcast payload whose
theme field is dark; a second toggle returns all three to light. -/
theorem C4_toggle_is_involutive_flip (s : ThemeCtrl) (n1 n2 : Nat)
    (hlight : s.currentTheme = Theme.light) (hstore : s.storeOk = true) :
    (toggleTheme n1 s).1.currentTheme = Theme.dark ∧
    (toggleTheme n1 s).1.store = some "dark" ∧
    getAttr (toggleTheme n1 s).1.dom.root "data-theme" = some "dark" ∧
    broadcastThemes (toggleTheme n1 s).2 = [some (EventVal.str "dark")] ∧
    (toggleTheme n2 (toggleTheme n1 s).1).1.currentTheme = Theme.light ∧
    (toggleTheme n2 (toggleTheme n1 s).1).1.store = some "light" ∧
    getAttr (toggleTheme n2 (toggleTheme n1 s).1).1.dom.root "data-theme"
      = some "light" ∧
    broadcastThemes (toggleTheme n2 (toggleTheme n1 s).1).2
      = [some (EventVal.str "light")] := by
  simp [toggleTheme, setTheme, saveTheme, hlight, hstore, Theme.flip, Theme.str,
    broadcastThemes, broadcastDetails, themeDetail, applyTheme, applyThemeToNode,
    getAttr_setAttr, List.lookup]

/-- C4 witness: the double toggle evaluated on the concrete fresh light
controller. -/
theorem C4_toggle_is_involutive_flip_witness :
    (toggleTheme 0 ctrl0).1.currentTheme = Theme.dark ∧
    (toggleTheme 1 (toggleTheme 0 ctrl0).1).1.currentTheme = Theme.light :=
  ⟨(C4_toggle_is_involutive_flip ctrl0 0 1 rfl rfl).1,
   (C4_toggle_is_involutive_flip ctrl0 0 1 rfl rfl).2.2.2.2.1⟩

/-- C5: on every toggle, in both controllers, the non-cosmetic effect trace
is exactly apply, then persist, then broadcast, in that order. -/
theorem C5_effect_order (now : Nat) (s : ThemeCtrl) :
    (toggleTheme now s).2.filter Effect.relevant =
      [Effect.applyE s.currentTheme.flip, Effect.persistE s.currentTheme.flip,
       Effect.broadcastE "appleThemeChanged" (themeDetail s.currentTheme.flip now)] ∧
    (toggleThemeG s).2.filter Effect.relevant =
      [Effect.applyE s.currentTheme.flip, Effect.persistE s.currentTheme.flip,
       Effect.broadcastE "themeChanged"
         [("theme", EventVal.str s.currentTheme.flip.str)]] := by
  constructor <;> rfl

/-- C6: when the store holds no truthy value, an OS-signal change applies
the new OS theme without persisting or broadcasting; when a value is
stored, the handler changes nothing; in particular after one toggle with a
working store the handler leaves the whole state unchanged. -/
theorem C6_os_signal_gating (s : ThemeCtrl) (osDark : Bool) :
    (storeTruthy s.store = false →
      (handleSystemThemeChange s osDark).1.dom
        = applyTheme (osTheme osDark) s.dom ∧
      (handleSystemThemeChange s osDark).1.store = s.store ∧
      (∀ t, Effect.persistE t ∉ (handleSystemThemeChange s osDark).2) ∧
      (∀ nm d, Effect.broadcastE nm d ∉ (handleSystemThemeChange s osDark).2)) ∧
    (storeTruthy s.store = true →
      (handleSystemThemeChange s osDark).1 = s) ∧
    (∀ now, s.storeOk = true →
      (handleSystemThemeChange (toggleTheme now s).1 osDark).1
        = (toggleTheme now s).1) := by
  refine ⟨?_, ?_, ?_⟩
  · intro h
    simp [handleSystemThemeChange, h]
  · intro h
    simp [handleSystemThemeChange, h]
  · intro now h
    have hs : (toggleTheme now s).1.store = some s.currentTheme.flip.str := by
      simp [toggleTheme, setTheme, saveTheme, h]
    simp [handleSystemThemeChange, hs, storeTruthy_some_str]

/-- C6 witness: the OS-change handler evaluated on the fresh controller
with empty store, and on the same controller after one toggle. -/
theorem C6_os_signal_gating_witness :
    (handleSystemThemeChange ctrl0 true).1.dom
      = applyTheme (osTheme true) ctrl0.dom ∧
    (handleSystemThemeChange (toggleTheme 0 ctrl0).1 true).1
      = (toggleTheme 0 ctrl0).1 :=
  ⟨((C6_os_signal_gating ctrl0 true).1 rfl).1,
   (C6_os_signal_gating ctrl0 true).2.2 0 rfl⟩

/-- C7 counterexample: on a toggle of the global.js controller the single
dispatched themeChanged event detail carries only the theme field, and
looking up a timestamp field in that payload yields nothing — refuting the
claim that every toggle broadcast carries a numeric timestamp. -/
theorem C7_counterexample_global_no_timestamp :
    broadcastDetails (toggleThemeG ctrl0).2 = [[("theme", EventVal.str "dark")]] ∧
    List.lookup "timestamp" [("theme", EventVal.str "dark")] = none := by
  constructor <;> rfl

/-- C7 (amended): each toggle dispatches exactly one document-level event
whose payload carries the new theme value; in the part_000 controller the
payload also carries the numeric dispatch timestamp, while the global.js
themeChanged payload carries only the theme. -/
theorem C7_broadcast_once_with_payload (now : Nat) (s : ThemeCtrl) :
    (toggleTheme now s).2.filter Effect.isBroadcast =
      [Effect.broadcastE "appleThemeChanged" (themeDetail s.currentTheme.flip now)] ∧
    List.lookup "theme" (themeDetail s.currentTheme.flip now)
      = some (EventVal.str s.currentTheme.flip.str) ∧
    List.lookup "timestamp" (themeDetail s.currentTheme.flip now)
      = some (EventVal.num now) ∧
    (toggleThemeG s).2.filter Effect.isBroadcast =
      [Effect.broadcastE "themeChanged"
        [("theme", EventVal.str s.currentTheme.flip.str)]] ∧
    List.lookup "timestamp" [("theme", EventVal.str s.currentTheme.flip.str)]
      = none := by
  refine ⟨rfl, ?_, ?_, rfl, ?_⟩ <;> simp [themeDetail, List.lookup]

/-- C1 counterexample: with the generic observeIntersection helper, an
element that enters, leaves and re-enters the viewport has its callback
invoked twice, not exactly once, and keeps being notified after the first
firing — refuting the unconditional one-shot-and-unsubscribe claim. -/
theorem C1_counterexample_no_unsubscribe :
    observeIntersectionCalls [[true], [false], [true]] ≠ 1 ∧
    observeIntersectionCalls [[true], [false], [true]] = 2 := by
  exact ⟨by decide, by decide⟩

/-- C1 (amended): the hero reveal fires at most once over any sequence of
entry deliveries thanks to the hasAnimated latch — exactly once as soon as
any delivery intersects, and exactly once on the enter/leave/re-enter
scenario — but the element is not unsubscribed, and the bare
observeIntersection helper invokes its callback on every intersecting
delivery. -/
theorem C1_hero_one_shot_latch (bs : List EntryBatch) :
    (heroProcessBatches false bs).2 ≤ 1 ∧
    (bs.any intersectingBatch = true → (heroProcessBatches false bs).2 = 1) ∧
    heroProcessBatches false [[true], [false], [true]] = (true, 1) ∧
    observeIntersectionCalls [[true], [false], [true]] = 2 := by
  refine ⟨?_, ?_, by decide, by decide⟩
  · rw [heroProcessBatches_unlatched]
    split <;> simp
  · intro h
    simp [heroProcessBatches_unlatched, h]

/-- C1 witness: the latch theorem applied to a single intersecting
delivery. -/
theorem C1_hero_one_shot_latch_witness :
    (heroProcessBatches false [[true]]).2 = 1 :=
  (C1_hero_one_shot_latch [[true]]).2.1 (by decide)

/-- C9 counterexample: global.js observeElement performs no feature
detection, so in a runtime without IntersectionObserver the registration
throws instead of invoking the reveal callback on a delay. -/
theorem C9_counterexample_observeElement_throws :
    observeElement false = Except.error () := rfl

/-- C9 (amended): with the helper or primitive unavailable, the hero
entrance registers a 300 ms timer that runs the reveal, and the
observeIntersection fallback invokes the callback once per registered
non-null element (never zero times, never a throw). -/
theorem C9_fallback_paths (elems : List Bool) (h : ∀ x ∈ elems, x = true) :
    setupEntranceAnimation false = HeroRegistration.timer 300 ∧
    observeIntersectionFallbackCalls elems = elems.length ∧
    0 < observeIntersectionFallbackCalls [true] := by
  refine ⟨rfl, ?_, by decide⟩
  unfold observeIntersectionFallbackCalls
  have hf : List.filter id elems = elems := by
    rw [List.filter_eq_self]
    intro a ha
    simpa using h a ha
  rw [hf]

/-- C9 witness: the fallback path evaluated on two registered elements. -/
theorem C9_fallback_paths_witness :
    observeIntersectionFallbackCalls [true, true] = [true, true].length :=
  (C9_fallback_paths [true, true] (by decide)).2.1

end OptechWeb
